import Mathlib

/-!
Shallow embedding of `src/ticket_matching_system.py` (the semantic retrieval
engine of the TicketResolutionSystemRAG repository): the text normalizer
`create_ticket_string`, the build / save / load lifecycle, and the
threshold-filter + resolved-first ranking performed by `find_similar_tickets`.

Python strings are modelled as `List Char` (`PyStr`), Python `str.strip` as
`pyStrip`, similarity scores and distances as rationals.  The external
collaborators (the sentence-transformer embedding model and the hnswlib ANN
index) are not part of the repository's source; the embedding model is a
function parameter and the ANN k-nearest-neighbour query is modelled from the
spec (§4.3).  Python exceptions become an explicit `Err` sum: the
`ValueError`s raised by `find_similar_tickets` / `save_index` are
`NotInitialized`, the `IndexError` raised by `.iloc[0]` on an empty selection
is `RecordNotFound`, out-of-range list indexing is `IndexOutOfRange`, and
`FileNotFoundError` in the constructor is `FileNotFound`.
-/

/-- A Python string, modelled as its list of characters. -/
abbrev PyStr := List Char

/-- Python `str.strip()`: drop leading and trailing whitespace. -/
def pyStrip (s : PyStr) : PyStr :=
  (((s.dropWhile Char.isWhitespace).reverse.dropWhile Char.isWhitespace)).reverse

/-- An embedding vector (fixed-dimension float vector, modelled over ℚ). -/
abbrev Vec := List ℚ

/-- One row of the ticket corpus DataFrame.  `Ticket ID` is a required
column; the other columns are read with `row.get(col, default)` and may be
absent or NaN, modelled as `Option`. -/
structure Row where
  ticketId : String
  issue : Option PyStr
  category : Option PyStr
  description : Option PyStr
  resolved : Option Bool
  resolution : Option PyStr
deriving DecidableEq

/-- The hnswlib index: the vectors inserted at build time, slot `i` holding
the `i`-th vector (`add_items(embeddings, np.arange(n_elements))`). -/
structure HnswIndex where
  items : List Vec
deriving DecidableEq

/-- Python exceptions surfaced by the matching system. -/
inductive Err where
  | NotInitialized
  | RecordNotFound
  | IndexOutOfRange
  | FileNotFound
deriving DecidableEq

/-- The mutable fields of a `TicketMatchingSystem` instance that the
retrieval lifecycle touches (`self.index`, `self.ticket_ids`,
`self.resolved_tickets_data`). -/
structure SystemState where
  index : Option HnswIndex
  ticket_ids : List String
  resolved_tickets_data : Option (List Row)
deriving DecidableEq

/-- The state right after `__init__` sets its fields, before any index is
built or loaded (`self.index = None`, `self.ticket_ids = []`,
`self.resolved_tickets_data = None`). -/
def initState : SystemState :=
  { index := none, ticket_ids := [], resolved_tickets_data := none }

/-- Embedding of `TicketMatchingSystem.create_ticket_string`: missing (`pd.isna`) fields
become `""`, then `f"{issue} {category} {description}".strip()`. -/
def create_ticket_string (issue category description : Option PyStr) : PyStr :=
  pyStrip ((issue.getD []) ++ ' ' :: (category.getD []) ++ ' ' :: (description.getD []))

/-- The batch arm of `generate_embeddings`: `self.model.encode(texts)`, one
vector per text. -/
def generate_embeddings_batch (model : PyStr → Vec) (texts : List PyStr) : List Vec :=
  texts.map model

/-- Embedding of `TicketMatchingSystem.save_index`: raises `ValueError` when
`self.index is None`, otherwise writes the index file.  The `Bool` records
that a file was written. -/
def save_index (st : SystemState) : Except Err (SystemState × Bool) :=
  match st.index with
  | none => .error .NotInitialized
  | some _ => .ok (st, true)

/-- Embedding of `TicketMatchingSystem.build_index_from_csv` on a DataFrame `df`:
store the corpus, derive one ticket string per row, store
`df['Ticket ID'].tolist()`, embed the strings, build the index over them in
row order, and save it. -/
def build_index_from_csv (model : PyStr → Vec) (st : SystemState) (df : List Row) :
    Except Err (SystemState × Bool) :=
  let ticket_strings := df.map (fun r => create_ticket_string r.issue r.category r.description)
  let embeddings := generate_embeddings_batch model ticket_strings
  save_index { st with
    resolved_tickets_data := some df
    ticket_ids := df.map (·.ticketId)
    index := some ⟨embeddings⟩ }

/-- Embedding of `TicketMatchingSystem.load_index`: replace `self.index` with the index
deserialized from disk (the persisted index is the argument). -/
def load_index (st : SystemState) (persisted : HnswIndex) : SystemState :=
  { st with index := some persisted }

/-- Embedding of `TicketMatchingSystem.load_resolved_tickets_data`: re-read the corpus CSV
and re-derive `self.ticket_ids` from its row order. -/
def load_resolved_tickets_data (st : SystemState) (rows : List Row) : SystemState :=
  { st with resolved_tickets_data := some rows, ticket_ids := rows.map (·.ticketId) }

/-- The load path of `TicketMatchingSystem.__init__` (an `index_path` was
given): `FileNotFoundError` if the data file or the index file is missing,
otherwise `load_index` followed by `load_resolved_tickets_data`.  `none`
models a missing file on disk. -/
def init_with_index (persistedIndex : Option HnswIndex) (csvRows : Option (List Row)) :
    Except Err SystemState :=
  match csvRows with
  | none => .error .FileNotFound
  | some rows =>
    match persistedIndex with
    | none => .error .FileNotFound
    | some idx => .ok (load_resolved_tickets_data (load_index initState idx) rows)

/-- Comparison of raw ANN results by distance (second component). -/
def distLE (a b : Nat × ℚ) : Prop := a.2 ≤ b.2

instance : DecidableRel distLE :=
  fun a b => inferInstanceAs (Decidable (a.2 ≤ b.2))

instance : IsTotal (Nat × ℚ) distLE :=
  ⟨fun a b => le_total a.2 b.2⟩

instance : IsTrans (Nat × ℚ) distLE :=
  ⟨fun _ _ _ hab hbc => le_trans hab hbc⟩

/-- Modelled from the spec: the ANN query primitive `hnswlib.Index.knn_query`
is external to the repository's source (only its caller is in
`src/ticket_matching_system.py`).  Spec §4.3: `query(vector, k)` returns an
ordered sequence of `(slot_id, distance)` pairs, length ≤ k, ordered by
increasing distance, over the vectors inserted at build time.  The distance
metric (cosine distance per the spec) is abstracted as the parameter `d`. -/
def knn_query (d : Vec → Vec → ℚ) (idx : HnswIndex) (v : Vec) (k : Nat) :
    List (Nat × ℚ) :=
  (((idx.items.enum).map (fun p => (p.1, d v p.2))).insertionSort distLE).take k

/-- One enriched match dictionary appended to `results` inside
`find_similar_tickets`. -/
structure MatchResult where
  ticket_id : String
  similarity_score : ℚ
  issue : PyStr
  category : PyStr
  description : PyStr
  resolved : Bool
  resolution : PyStr
deriving DecidableEq

/-- Build one `results` entry from a ticket id, its similarity score and the
corpus row selected for it (`ticket_row.get(col, default)`). -/
def mkMatch (tid : String) (sim : ℚ) (row : Row) : MatchResult :=
  { ticket_id := tid
    similarity_score := sim
    issue := row.issue.getD []
    category := row.category.getD []
    description := row.description.getD []
    resolved := row.resolved.getD false
    resolution := row.resolution.getD [] }

/-- The result-collection loop of `find_similar_tickets`:
`for idx, dist in zip(labels[0], distances[0])`, compute
`similarity_score = 1 - dist`, keep it only when
`similarity_score >= similarity_threshold`, resolve the slot through
`self.ticket_ids[idx]` (raising `IndexError` when out of range) and select
the first corpus row with that `Ticket ID`
(`.iloc[0]` raising on an empty selection). -/
def collectResults (ticket_ids : List String) (corpus : List Row) (threshold : ℚ) :
    List (Nat × ℚ) → Except Err (List MatchResult)
  | [] => .ok []
  | (idx, dist) :: rest =>
    if threshold ≤ 1 - dist then
      match ticket_ids[idx]? with
      | none => .error .IndexOutOfRange
      | some tid =>
        match corpus.find? (fun r => r.ticketId == tid) with
        | none => .error .RecordNotFound
        | some row =>
          match collectResults ticket_ids corpus threshold rest with
          | .error e => .error e
          | .ok rs => .ok (mkMatch tid (1 - dist) row :: rs)
    else
      collectResults ticket_ids corpus threshold rest

/-- The Python sort key `lambda x: (-int(x['resolved']), -x['similarity_score'])`. -/
def sortKey (m : MatchResult) : Int × ℚ :=
  (-(if m.resolved then 1 else 0), -m.similarity_score)

/-- Lexicographic ≤ on the sort key, as Python tuple comparison orders it. -/
def sortKeyLE (a b : MatchResult) : Prop :=
  (sortKey a).1 < (sortKey b).1 ∨
    ((sortKey a).1 = (sortKey b).1 ∧ (sortKey a).2 ≤ (sortKey b).2)

instance : DecidableRel sortKeyLE :=
  fun a b => inferInstanceAs (Decidable ((sortKey a).1 < (sortKey b).1 ∨
    ((sortKey a).1 = (sortKey b).1 ∧ (sortKey a).2 ≤ (sortKey b).2)))

instance : IsTotal MatchResult sortKeyLE := by
  refine ⟨fun a b => ?_⟩
  unfold sortKeyLE
  rcases lt_trichotomy (sortKey a).1 (sortKey b).1 with h | h | h
  · exact Or.inl (Or.inl h)
  · rcases le_total (sortKey a).2 (sortKey b).2 with h2 | h2
    · exact Or.inl (Or.inr ⟨h, h2⟩)
    · exact Or.inr (Or.inr ⟨h.symm, h2⟩)
  · exact Or.inr (Or.inl h)

instance : IsTrans MatchResult sortKeyLE := by
  refine ⟨fun a b c hab hbc => ?_⟩
  unfold sortKeyLE at *
  rcases hab with h1 | ⟨h1, h1q⟩ <;> rcases hbc with h2 | ⟨h2, h2q⟩
  · exact Or.inl (h1.trans h2)
  · exact Or.inl (h2 ▸ h1)
  · exact Or.inl (h1 ▸ h2)
  · exact Or.inr ⟨h1.trans h2, h1q.trans h2q⟩

/-- The Retrieval Ranker: the filtering/enrichment loop followed by
`results.sort(key=...)` (a stable ascending sort on the composite key). -/
def rank (ticket_ids : List String) (corpus : List Row) (threshold : ℚ)
    (raw : List (Nat × ℚ)) : Except Err (List MatchResult) :=
  match collectResults ticket_ids corpus threshold raw with
  | .error e => .error e
  | .ok rs => .ok (rs.insertionSort sortKeyLE)

/-- Embedding of `TicketMatchingSystem.find_similar_tickets`: guard on the two
uninitialized fields, normalize the query fields, embed, run the ANN query,
then rank.  The first component of the result is the instance state after
the call (the method assigns to no field of `self`). -/
def find_similar_tickets (model : PyStr → Vec) (d : Vec → Vec → ℚ) (st : SystemState)
    (issue category description : Option PyStr) (k : Nat) (similarity_threshold : ℚ) :
    SystemState × Except Err (List MatchResult) :=
  match st.index with
  | none => (st, .error .NotInitialized)
  | some idx =>
    match st.resolved_tickets_data with
    | none => (st, .error .NotInitialized)
    | some corpus =>
      let query_string := create_ticket_string issue category description
      let query_embedding := model query_string
      let raw := knn_query d idx query_embedding k
      (st, rank st.ticket_ids corpus similarity_threshold raw)

/-- Follows the spec's words (§4.1 / §8): "the concatenation of only the
present fields, trimmed" — the present fields joined by single spaces, then
stripped.  Kept separate from `create_ticket_string` so the two can be
compared. -/
def joinSpaces : List PyStr → PyStr
  | [] => []
  | [s] => s
  | s :: rest => s ++ ' ' :: joinSpaces rest

/-- Follows the spec's words: normalize as the trimmed single-space
concatenation of only the present fields. -/
def normalize_presentFields (issue category description : Option PyStr) : PyStr :=
  pyStrip (joinSpaces ([issue, category, description].filterMap id))

/-- A sample resolved corpus row used to instantiate theorems. -/
def rowT0 : Row :=
  { ticketId := "T0", issue := some ['p'], category := none, description := none,
    resolved := some true, resolution := some ['r'] }

/-- A sample unresolved corpus row used to instantiate theorems. -/
def rowT1 : Row :=
  { ticketId := "T1", issue := some ['q'], category := none, description := none,
    resolved := some false, resolution := none }

/-- A second row carrying the same `Ticket ID` as `rowT0`, with different
field values (a duplicate-identifier corpus row). -/
def rowT0dup : Row :=
  { ticketId := "T0", issue := some ['z'], category := none, description := none,
    resolved := some false, resolution := none }

/-- A sample embedding model used to instantiate theorems: every text maps to
the one-dimensional vector `[0]`. -/
def model0 : PyStr → Vec := fun _ => [0]

/-- A sample distance function used to instantiate theorems: the distance is
the head of the stored vector, so each stored item carries its own distance. -/
def d0 : Vec → Vec → ℚ := fun _ w => w.headD 0

/-- A sample `Ready` state over a two-row corpus: slot 0 holds `rowT0`
(resolved, stored distance 3/10) and slot 1 holds `rowT1` (unresolved,
stored distance 1/10). -/
def readyState : SystemState :=
  { index := some ⟨[[3/10], [1/10]]⟩, ticket_ids := ["T0", "T1"],
    resolved_tickets_data := some [rowT0, rowT1] }

/-- A sample `Ready` state whose corpus holds two rows with the same
`Ticket ID`. -/
def dupState : SystemState :=
  { index := some ⟨[[0]]⟩, ticket_ids := ["T0"],
    resolved_tickets_data := some [rowT0, rowT0dup] }

/-- A sample `Ready` state whose corpus is missing the identifier that slot 0
maps to (an index/corpus mismatch). -/
def mismatchState : SystemState :=
  { index := some ⟨[[0]]⟩, ticket_ids := ["T9"],
    resolved_tickets_data := some [rowT0] }

/-! ### Helper lemmas about `pyStrip` -/

theorem dropWhile_ws_space_cons (x : List Char) :
    x.dropWhile Char.isWhitespace = (' ' :: x).dropWhile Char.isWhitespace := by
  rw [List.dropWhile_cons, if_pos (by decide)]

theorem pyStrip_cons_space (s : PyStr) : pyStrip (' ' :: s) = pyStrip s := by
  unfold pyStrip
  rw [← dropWhile_ws_space_cons s]

theorem pyStrip_append_space (s : PyStr) : pyStrip (s ++ [' ']) = pyStrip s := by
  unfold pyStrip
  rw [List.dropWhile_append]
  cases h : s.dropWhile Char.isWhitespace with
  | nil => simp
  | cons a t =>
    rw [if_neg (by simp)]
    show (List.dropWhile Char.isWhitespace ((a :: t) ++ [' ']).reverse).reverse
        = (List.dropWhile Char.isWhitespace (a :: t).reverse).reverse
    rw [List.reverse_append]
    show (List.dropWhile Char.isWhitespace (' ' :: (a :: t).reverse)).reverse = _
    rw [← dropWhile_ws_space_cons]

/-! ### C4 — the text normalizer on missing fields -/

/-- C4 (counterexample): with the middle field (category) missing and the two
outer fields present, `create_ticket_string` keeps a double space between
issue and description, so it differs from the trimmed single-space
concatenation of only the present fields. -/
theorem create_ticket_string_counterexample :
    create_ticket_string (some ['a']) none (some ['b'])
      ≠ normalize_presentFields (some ['a']) none (some ['b']) := by
  decide

/-- C4 (amended): `create_ticket_string` never fails on missing fields and
concatenates the three fields (missing ones as the empty string) in fixed
order separated by single spaces, trimming the ends; the result equals the
single-space concatenation of only the present fields whenever the category
field is present or one of the outer fields is the missing one — the sole
exception is a missing category between two present fields, where a double
space remains (the counterexample above). -/
theorem create_ticket_string_presentFields (issue category description : Option PyStr)
    (h : category ≠ none ∨ issue = none ∨ description = none) :
    create_ticket_string issue category description =
      normalize_presentFields issue category description := by
  rcases issue with _ | i <;> rcases category with _ | c <;> rcases description with _ | e
  · rfl
  · -- all missing except description
    show pyStrip (' ' :: ' ' :: e) = pyStrip e
    rw [pyStrip_cons_space, pyStrip_cons_space]
  · -- only category present
    show pyStrip (' ' :: (c ++ [' '])) = pyStrip c
    rw [pyStrip_cons_space, pyStrip_append_space]
  · -- category and description present
    show pyStrip (' ' :: (c ++ ' ' :: e)) = pyStrip (c ++ ' ' :: e)
    rw [pyStrip_cons_space]
  · -- only issue present
    show pyStrip ((i ++ [' ']) ++ [' ']) = pyStrip i
    rw [pyStrip_append_space, pyStrip_append_space]
  · -- issue and description present, category missing: excluded by `h`
    exact absurd h (by simp)
  · -- issue and category present
    show pyStrip ((i ++ ' ' :: c) ++ [' ']) = pyStrip (i ++ ' ' :: c)
    rw [pyStrip_append_space]
  · -- all present
    show pyStrip ((i ++ ' ' :: c) ++ ' ' :: e) = pyStrip (i ++ ' ' :: (c ++ ' ' :: e))
    exact congrArg pyStrip (by simp)

/-- C4 (witness): the amended statement instantiated at a missing issue
field. -/
theorem create_ticket_string_presentFields_witness :
    create_ticket_string none (some ['x']) (some ['y'])
      = normalize_presentFields none (some ['x']) (some ['y']) :=
  create_ticket_string_presentFields none (some ['x']) (some ['y'])
    (Or.inr (Or.inl rfl))

/-! ### C9 — `find_similar_tickets` mutates no state -/

/-- C9: for every state (in particular every `Ready` state) and every input,
the instance state after a `find_similar_tickets` call — its ANN index, its
ticket-identifier list and its in-memory corpus table — is identical to the
state before the call. -/
theorem find_similar_tickets_frame (model : PyStr → Vec) (d : Vec → Vec → ℚ)
    (st : SystemState) (issue category description : Option PyStr) (k : Nat) (t : ℚ) :
    (find_similar_tickets model d st issue category description k t).1 = st := by
  obtain ⟨i, ids, data⟩ := st
  cases i <;> cases data <;> rfl

/-! ### C6 — `find_similar` requires the `Ready` state -/

/-- C6: calling `find_similar_tickets` on an instance that has not completed
a build or a load (no index present) fails with `NotInitialized`, and a
successful call is only possible when both the index and the corpus are
present (the `Ready` state). -/
theorem find_similar_tickets_not_initialized (model : PyStr → Vec) (d : Vec → Vec → ℚ)
    (st : SystemState) (issue category description : Option PyStr) (k : Nat) (t : ℚ) :
    (st.index = none →
      (find_similar_tickets model d st issue category description k t).2
        = .error .NotInitialized) ∧
    (∀ res, (find_similar_tickets model d st issue category description k t).2 = .ok res →
      st.index ≠ none ∧ st.resolved_tickets_data ≠ none) := by
  obtain ⟨i, ids, data⟩ := st
  constructor
  · rintro rfl
    rfl
  · intro res h
    cases i with
    | none => exact absurd h (by simp [find_similar_tickets])
    | some idx =>
      cases data with
      | none => exact absurd h (by simp [find_similar_tickets])
      | some corpus => exact ⟨by simp, by simp⟩

/-- C6 (witness): the uninitialized state produced by `__init__` fails with
`NotInitialized`. -/
theorem find_similar_tickets_not_initialized_witness :
    (find_similar_tickets model0 d0 initState none none none 3 0).2
      = .error .NotInitialized :=
  (find_similar_tickets_not_initialized model0 d0 initState none none none 3 0).1 rfl

/-! ### C5 — the ANN query length and ordering contract -/

/-- C5: for every index over N stored vectors and every k, the k-nearest
query returns exactly min(k, N) results — in particular at most min(k, N),
and min(k, element_count) rather than an undefined failure when k exceeds
the element count — ordered by non-decreasing distance. -/
theorem knn_query_length_le_sorted (d : Vec → Vec → ℚ) (idx : HnswIndex) (v : Vec) (k : Nat) :
    (knn_query d idx v k).length = min k idx.items.length ∧
    (knn_query d idx v k).Pairwise (fun a b => a.2 ≤ b.2) := by
  constructor
  · simp [knn_query]
  · exact List.Pairwise.sublist (List.take_sublist _ _)
      (List.sorted_insertionSort distLE _)

/-! ### C3 — the slot-id ↔ identifier mapping across save/load -/

/-- C3 (counterexample): loading a persisted two-slot index together with a
persisted one-row corpus succeeds — the load path performs no validation
that the persisted index and the persisted record mapping agree on corpus
size, contradicting "must agree …, or loading must fail". -/
theorem load_no_validation_counterexample :
    init_with_index (some ⟨[[0], [0]]⟩) (some [rowT0])
        = .ok ⟨some ⟨[[0], [0]]⟩, ["T0"], some [rowT0]⟩ ∧
      (⟨[[0], [0]]⟩ : HnswIndex).items.length ≠ ([rowT0].map (·.ticketId)).length :=
  ⟨rfl, by decide⟩

/-- C3 (amended): the slot-id → identifier mapping is established
positionally at build time (`ticket_ids` in corpus row order, one index slot
per row in the same order); the load path re-derives the mapping from the
reloaded corpus row order and performs no agreement validation — whenever
both files exist, loading succeeds, whether or not the persisted index and
the persisted corpus agree on size or ordering. -/
theorem build_load_mapping_positional :
    (∀ (model : PyStr → Vec) (st : SystemState) (df : List Row),
      build_index_from_csv model st df = .ok ({ st with
        resolved_tickets_data := some df,
        ticket_ids := df.map (·.ticketId),
        index := some ⟨(df.map
          (fun r => create_ticket_string r.issue r.category r.description)).map model⟩ }, true)) ∧
    (∀ (persisted : HnswIndex) (rows : List Row),
      init_with_index (some persisted) (some rows)
        = .ok ⟨some persisted, rows.map (·.ticketId), some rows⟩) :=
  ⟨fun _ _ _ => rfl, fun _ _ => rfl⟩

/-! ### C8 — building from an empty corpus -/

/-- C8 (counterexample): building from an empty corpus does not fail with
`InvalidArgument` — it succeeds, building a zero-element index, and the
index file is written (the `true` flag). -/
theorem build_empty_corpus_counterexample :
    build_index_from_csv (fun _ => List.replicate 384 0) initState []
      = .ok (⟨some ⟨[]⟩, [], some []⟩, true) := rfl

/-- C8 (amended): `build_index_from_csv` performs no empty-corpus
validation: for every embedding model, building from an empty corpus
succeeds with a zero-element index and writes the index file. -/
theorem build_empty_corpus_succeeds (model : PyStr → Vec) :
    build_index_from_csv model initState []
      = .ok (⟨some ⟨[]⟩, [], some []⟩, true) := rfl

/-! ### Helper lemmas about `collectResults`, `rank` and the ranking sort -/

theorem collectResults_ok_spec (ticket_ids : List String) (corpus : List Row) (t : ℚ) :
    ∀ raw rs, collectResults ticket_ids corpus t raw = .ok rs →
      (∀ m ∈ rs, t ≤ m.similarity_score) ∧
      rs.length = (raw.filter (fun p => decide (t ≤ 1 - p.2))).length ∧
      (∀ p ∈ raw, t ≤ 1 - p.2 → ∃ m ∈ rs, m.similarity_score = 1 - p.2) := by
  intro raw
  induction raw with
  | nil =>
    intro rs h
    obtain rfl : ([] : List MatchResult) = rs := by simpa [collectResults] using h
    exact ⟨by simp, by simp, by simp⟩
  | cons p rest ih =>
    obtain ⟨idx, dist⟩ := p
    intro rs h
    simp only [collectResults] at h
    by_cases hth : t ≤ 1 - dist
    · rw [if_pos hth] at h
      split at h
      · simp at h
      · rename_i tid hid
        split at h
        · simp at h
        · rename_i row hfind
          split at h
          · simp at h
          · rename_i rs' hrec
            simp only [Except.ok.injEq] at h
            subst h
            obtain ⟨ih1, ih2, ih3⟩ := ih rs' hrec
            refine ⟨?_, ?_, ?_⟩
            · intro m hm
              rcases List.mem_cons.mp hm with rfl | hm'
              · simpa [mkMatch] using hth
              · exact ih1 m hm'
            · simp [List.filter_cons, hth, ih2]
            · intro q hq hqle
              rcases List.mem_cons.mp hq with rfl | hq'
              · exact ⟨_, List.mem_cons_self _ _, rfl⟩
              · obtain ⟨m, hm, hms⟩ := ih3 q hq' hqle
                exact ⟨m, List.mem_cons_of_mem _ hm, hms⟩
    · rw [if_neg hth] at h
      obtain ⟨ih1, ih2, ih3⟩ := ih rs h
      refine ⟨ih1, ?_, ?_⟩
      · simp [List.filter_cons, hth, ih2]
      · intro q hq hqle
        rcases List.mem_cons.mp hq with rfl | hq'
        · exact absurd hqle hth
        · exact ih3 q hq' hqle

theorem collectResults_all_below (ticket_ids : List String) (corpus : List Row) (t : ℚ) :
    ∀ raw, (∀ p ∈ raw, 1 - p.2 < t) → collectResults ticket_ids corpus t raw = .ok []
  | [], _ => rfl
  | (idx, dist) :: rest, h => by
    simp only [collectResults]
    rw [if_neg (not_le.mpr (h (idx, dist) (List.mem_cons_self _ _)))]
    exact collectResults_all_below ticket_ids corpus t rest
      (fun q hq => h q (List.mem_cons_of_mem _ hq))

theorem collectResults_ok_from_find (ticket_ids : List String) (corpus : List Row) (t : ℚ) :
    ∀ raw rs, collectResults ticket_ids corpus t raw = .ok rs →
      ∀ m ∈ rs, ∃ row, corpus.find? (fun r => r.ticketId == m.ticket_id) = some row ∧
        m = mkMatch m.ticket_id m.similarity_score row := by
  intro raw
  induction raw with
  | nil =>
    intro rs h
    obtain rfl : ([] : List MatchResult) = rs := by simpa [collectResults] using h
    simp
  | cons p rest ih =>
    obtain ⟨idx, dist⟩ := p
    intro rs h
    simp only [collectResults] at h
    by_cases hth : t ≤ 1 - dist
    · rw [if_pos hth] at h
      split at h
      · simp at h
      · rename_i tid hid
        split at h
        · simp at h
        · rename_i row hfind
          split at h
          · simp at h
          · rename_i rs' hrec
            simp only [Except.ok.injEq] at h
            subst h
            intro m hm
            rcases List.mem_cons.mp hm with rfl | hm'
            · exact ⟨row, by simpa [mkMatch] using hfind, rfl⟩
            · exact ih rs' hrec m hm'
    · rw [if_neg hth] at h
      exact ih rs h

theorem collectResults_missing_record (ticket_ids : List String) (corpus : List Row) (t : ℚ) :
    ∀ raw,
      (∀ p ∈ raw, t ≤ 1 - p.2 → (ticket_ids[p.1]?).isSome) →
      (∃ p ∈ raw, t ≤ 1 - p.2 ∧ ∀ tid, ticket_ids[p.1]? = some tid →
        corpus.find? (fun r => r.ticketId == tid) = none) →
      collectResults ticket_ids corpus t raw = .error .RecordNotFound := by
  intro raw
  induction raw with
  | nil =>
    rintro _ ⟨p, hp, _⟩
    exact absurd hp (List.not_mem_nil p)
  | cons q rest ih =>
    obtain ⟨idx, dist⟩ := q
    intro hwf hmiss
    simp only [collectResults]
    by_cases hth : t ≤ 1 - dist
    · rw [if_pos hth]
      split
      · rename_i hid
        have hs := hwf (idx, dist) (List.mem_cons_self _ _) hth
        rw [hid] at hs
        simp at hs
      · rename_i tid hid
        split
        · rfl
        · rename_i row hfind
          obtain ⟨p, hp, hple, hptid⟩ := hmiss
          rcases List.mem_cons.mp hp with rfl | hp'
          · exact absurd (hptid tid hid) (by simp [hfind])
          · rw [ih (fun q hq hqle => hwf q (List.mem_cons_of_mem _ hq) hqle)
              ⟨p, hp', hple, hptid⟩]
    · rw [if_neg hth]
      obtain ⟨p, hp, hple, hptid⟩ := hmiss
      rcases List.mem_cons.mp hp with rfl | hp'
      · exact absurd hple hth
      · exact ih (fun q hq hqle => hwf q (List.mem_cons_of_mem _ hq) hqle) ⟨p, hp', hple, hptid⟩

theorem rank_ok_iff (ticket_ids : List String) (corpus : List Row) (t : ℚ)
    (raw : List (Nat × ℚ)) (out : List MatchResult) :
    rank ticket_ids corpus t raw = .ok out ↔
      ∃ rs, collectResults ticket_ids corpus t raw = .ok rs ∧
        out = rs.insertionSort sortKeyLE := by
  unfold rank
  cases h : collectResults ticket_ids corpus t raw with
  | error e => simp
  | ok rs => simp [eq_comm]

theorem sortKeyLE_imp {a b : MatchResult} (hab : sortKeyLE a b) :
    (b.resolved = true → a.resolved = true) ∧
    (a.resolved = b.resolved → b.similarity_score ≤ a.similarity_score) := by
  unfold sortKeyLE sortKey at hab
  cases ha : a.resolved <;> cases hb : b.resolved <;> rw [ha, hb] at hab <;>
    norm_num at hab
  · exact ⟨fun hc => hc, fun _ => hab⟩
  · exact ⟨fun _ => rfl, fun hc => by simp at hc⟩
  · exact ⟨fun _ => rfl, fun _ => hab⟩

theorem find_similar_tickets_ok (model : PyStr → Vec) (d : Vec → Vec → ℚ)
    (st : SystemState) (issue category description : Option PyStr) (k : Nat) (t : ℚ)
    (st' : SystemState) (out : List MatchResult)
    (h : find_similar_tickets model d st issue category description k t = (st', .ok out)) :
    ∃ idx corpus, st.index = some idx ∧ st.resolved_tickets_data = some corpus ∧
      rank st.ticket_ids corpus t
        (knn_query d idx (model (create_ticket_string issue category description)) k)
        = .ok out := by
  obtain ⟨i, ids, data⟩ := st
  cases i with
  | none => exact absurd h (by simp [find_similar_tickets])
  | some idx =>
    cases data with
    | none => exact absurd h (by simp [find_similar_tickets])
    | some corpus =>
      refine ⟨idx, corpus, rfl, rfl, ?_⟩
      have h2 := congrArg Prod.snd h
      simpa [find_similar_tickets] using h2

/-! ### C1 — the composite ranking order of `find_similar` -/

/-- C1: for every raw result sequence, a successful `find_similar_tickets`
call returns a list sorted by the composite key — resolved-status descending
first, similarity descending second: a resolved match never appears after an
unresolved one, and among matches with equal resolved status a
higher-similarity match never appears after a lower-similarity one. -/
theorem find_similar_tickets_sorted (model : PyStr → Vec) (d : Vec → Vec → ℚ)
    (st : SystemState) (issue category description : Option PyStr) (k : Nat) (t : ℚ)
    (st' : SystemState) (out : List MatchResult)
    (h : find_similar_tickets model d st issue category description k t = (st', .ok out)) :
    out.Pairwise (fun a b => (b.resolved = true → a.resolved = true) ∧
      (a.resolved = b.resolved → b.similarity_score ≤ a.similarity_score)) := by
  obtain ⟨idx, corpus, hidx, hdata, hrank⟩ :=
    find_similar_tickets_ok model d st issue category description k t st' out h
  obtain ⟨rs, hcol, rfl⟩ := (rank_ok_iff _ _ _ _ _).mp hrank
  exact (List.sorted_insertionSort sortKeyLE rs).imp (fun hab => sortKeyLE_imp hab)

/-- C1 (witness): on the sample two-row state the unresolved slot is closer
(similarity 9/10) yet the resolved match (similarity 7/10) is returned
first. -/
theorem find_similar_tickets_sorted_witness :
    ([mkMatch "T0" (7/10 : ℚ) rowT0, mkMatch "T1" (9/10 : ℚ) rowT1]).Pairwise
      (fun a b => (b.resolved = true → a.resolved = true) ∧
        (a.resolved = b.resolved → b.similarity_score ≤ a.similarity_score)) :=
  find_similar_tickets_sorted model0 d0 readyState none none none 2 (1/2) readyState
    [mkMatch "T0" (7/10 : ℚ) rowT0, mkMatch "T1" (9/10 : ℚ) rowT1] (by
      have h1 : (("T0" : String) == "T1") = false := rfl
      have h2 : (("T1" : String) == "T1") = true := rfl
      have h3 : (("T0" : String) == "T0") = true := rfl
      norm_num [h1, h2, h3, find_similar_tickets, knn_query, rank, collectResults, readyState,
        model0, d0, List.insertionSort, List.orderedInsert, distLE, sortKeyLE, sortKey, mkMatch,
        rowT0, rowT1, List.enum, List.enumFrom, List.find?])

/-! ### C2 — the similarity threshold is a hard filter -/

/-- C2: every returned match scores `1 - distance` and passes the threshold
(`similarity < threshold` is excluded entirely, `similarity = threshold` is
kept — the returned matches are in bijection with the raw results whose
similarity reaches the threshold), and when every raw result falls below
the threshold the result is an empty list, not an error. -/
theorem rank_threshold_hard_filter (ticket_ids : List String) (corpus : List Row)
    (t : ℚ) (raw : List (Nat × ℚ)) :
    (∀ out, rank ticket_ids corpus t raw = .ok out →
      (∀ m ∈ out, t ≤ m.similarity_score) ∧
      out.length = (raw.filter (fun p => decide (t ≤ 1 - p.2))).length ∧
      (∀ p ∈ raw, t ≤ 1 - p.2 → ∃ m ∈ out, m.similarity_score = 1 - p.2)) ∧
    ((∀ p ∈ raw, 1 - p.2 < t) → rank ticket_ids corpus t raw = .ok []) := by
  constructor
  · intro out hout
    obtain ⟨rs, hcol, rfl⟩ := (rank_ok_iff _ _ _ _ _).mp hout
    obtain ⟨h1, h2, h3⟩ := collectResults_ok_spec ticket_ids corpus t raw rs hcol
    have hperm := List.perm_insertionSort sortKeyLE rs
    refine ⟨?_, ?_, ?_⟩
    · intro m hm
      exact h1 m (hperm.mem_iff.mp hm)
    · rw [List.length_insertionSort]
      exact h2
    · intro p hp hple
      obtain ⟨m, hm, hms⟩ := h3 p hp hple
      exact ⟨m, hperm.mem_iff.mpr hm, hms⟩
  · intro hbelow
    unfold rank
    rw [collectResults_all_below ticket_ids corpus t raw hbelow]
    rfl

/-- C2 (witness): a raw result at distance 1/2 (similarity exactly the 1/2
threshold) is kept, and a raw result at distance 9/10 (similarity 1/10) is
excluded, leaving an empty — but not erroneous — result list. -/
theorem rank_threshold_hard_filter_witness :
    ([mkMatch "T0" (1 - 1/2 : ℚ) rowT0].length
      = ([((0 : Nat), (1/2 : ℚ))].filter (fun p => decide ((1/2 : ℚ) ≤ 1 - p.2))).length) ∧
    rank ["T0"] [rowT0] (1/2) [(0, 9/10)] = .ok [] := by
  constructor
  · exact ((rank_threshold_hard_filter ["T0"] [rowT0] (1/2) [(0, 1/2)]).1
      [mkMatch "T0" (1 - 1/2 : ℚ) rowT0] (by
        have h3 : (("T0" : String) == "T0") = true := rfl
        norm_num [h3, rank, collectResults, List.insertionSort, List.orderedInsert,
          List.find?, mkMatch, rowT0])).2.1
  · exact (rank_threshold_hard_filter ["T0"] [rowT0] (1/2) [(0, 9/10)]).2 (by
      intro p hp
      rw [List.mem_singleton] at hp
      subst hp
      norm_num)

/-! ### C7 — a missing record aborts the query -/

/-- C7: when some surviving slot of the raw results resolves (within range)
to a ticket identifier with no row in the attached corpus, the query aborts
with the record-not-found error — the match is not silently dropped — and
the instance state (index, identifier list and corpus) is returned
unchanged. -/
theorem find_similar_tickets_record_not_found (model : PyStr → Vec) (d : Vec → Vec → ℚ)
    (st : SystemState) (issue category description : Option PyStr) (k : Nat) (t : ℚ)
    (idx : HnswIndex) (corpus : List Row)
    (hidx : st.index = some idx) (hdata : st.resolved_tickets_data = some corpus)
    (hwf : ∀ p ∈ knn_query d idx (model (create_ticket_string issue category description)) k,
      t ≤ 1 - p.2 → (st.ticket_ids[p.1]?).isSome)
    (hmiss : ∃ p ∈ knn_query d idx (model (create_ticket_string issue category description)) k,
      t ≤ 1 - p.2 ∧ ∀ tid, st.ticket_ids[p.1]? = some tid →
        corpus.find? (fun r => r.ticketId == tid) = none) :
    find_similar_tickets model d st issue category description k t
      = (st, .error .RecordNotFound) := by
  obtain ⟨i, ids, data⟩ := st
  obtain rfl : i = some idx := hidx
  obtain rfl : data = some corpus := hdata
  have hcol := collectResults_missing_record ids corpus t
    (knn_query d idx (model (create_ticket_string issue category description)) k) hwf hmiss
  simp only [find_similar_tickets]
  unfold rank
  rw [hcol]

/-- C7 (witness): a one-slot index whose identifier list names a ticket id
absent from the attached corpus aborts the query with `RecordNotFound` and
returns the state unchanged. -/
theorem find_similar_tickets_record_not_found_witness :
    find_similar_tickets model0 d0 mismatchState none none none 1 0
      = (mismatchState, .error .RecordNotFound) :=
  find_similar_tickets_record_not_found model0 d0 mismatchState none none none 1 0
    ⟨[[0]]⟩ [rowT0] rfl rfl
    (by
      intro p hp hle
      have hp' : p = (0, (0 : ℚ)) := by
        simpa [knn_query, model0, d0, List.insertionSort, List.orderedInsert,
          List.enum, List.enumFrom] using hp
      subst hp'
      rfl)
    (by
      refine ⟨(0, (0 : ℚ)), ?_, ?_, ?_⟩
      · simp [knn_query, model0, d0, List.insertionSort, List.orderedInsert,
          List.enum, List.enumFrom]
      · norm_num
      · intro tid htid
        have htid' : tid = "T9" := by
          simpa [mismatchState, eq_comm] using htid
        subst htid'
        rfl)

/-! ### C10 — duplicate identifiers resolve to the first corpus row -/

theorem find?_first_match (pre post : List Row) (row : Row) (tid : String)
    (hpre : ∀ r ∈ pre, r.ticketId ≠ tid) (hrow : row.ticketId = tid) :
    (pre ++ row :: post).find? (fun r => r.ticketId == tid) = some row := by
  induction pre with
  | nil =>
    rw [List.nil_append, List.find?_cons_of_pos _ (by simp [hrow])]
  | cons a l ih =>
    rw [List.cons_append,
      List.find?_cons_of_neg _ (by simp [hpre a (List.mem_cons_self _ _)]),
      ih (fun r hr => hpre r (List.mem_cons_of_mem _ hr))]

/-- C10: when the corpus contains several rows with the same ticket
identifier, every returned match carrying that identifier holds the field
snapshot of the first such row in corpus order. -/
theorem find_similar_tickets_duplicate_first (model : PyStr → Vec) (d : Vec → Vec → ℚ)
    (st : SystemState) (issue category description : Option PyStr) (k : Nat) (t : ℚ)
    (st' : SystemState) (out : List MatchResult) (pre post : List Row) (row : Row)
    (tid : String)
    (hcorpus : st.resolved_tickets_data = some (pre ++ row :: post))
    (hpre : ∀ r ∈ pre, r.ticketId ≠ tid) (hrow : row.ticketId = tid)
    (hdup : ∃ r ∈ post, r.ticketId = tid)
    (h : find_similar_tickets model d st issue category description k t = (st', .ok out)) :
    ∀ m ∈ out, m.ticket_id = tid → m = mkMatch tid m.similarity_score row := by
  obtain ⟨idx, corpus, hidx, hdata, hrank⟩ :=
    find_similar_tickets_ok model d st issue category description k t st' out h
  rw [hdata] at hcorpus
  obtain rfl : corpus = pre ++ row :: post := by
    injection hcorpus
  obtain ⟨rs, hcol, rfl⟩ := (rank_ok_iff _ _ _ _ _).mp hrank
  intro m hm hmid
  have hm' : m ∈ rs := (List.perm_insertionSort sortKeyLE rs).mem_iff.mp hm
  obtain ⟨row', hfind, hmk⟩ := collectResults_ok_from_find _ _ _ _ _ hcol m hm'
  rw [hmid] at hfind hmk
  rw [find?_first_match pre post row tid hpre hrow] at hfind
  obtain rfl : row' = row := by
    injection hfind with hf
    exact hf.symm
  exact hmk

/-- C10 (witness): with two corpus rows sharing the identifier T0, the
returned match snapshot comes from the first row. -/
theorem find_similar_tickets_duplicate_first_witness :
    mkMatch "T0" (1 - 0 : ℚ) rowT0
      = mkMatch "T0" (mkMatch "T0" (1 - 0 : ℚ) rowT0).similarity_score rowT0 :=
  find_similar_tickets_duplicate_first model0 d0 dupState none none none 1 0 dupState
    [mkMatch "T0" (1 - 0 : ℚ) rowT0] [] [rowT0dup] rowT0 "T0"
    rfl (by simp) rfl ⟨rowT0dup, by simp, rfl⟩
    (by
      have h3 : (("T0" : String) == "T0") = true := rfl
      norm_num [h3, find_similar_tickets, knn_query, rank, collectResults, dupState,
        model0, d0, List.insertionSort, List.orderedInsert, distLE, sortKeyLE, sortKey,
        mkMatch, rowT0, rowT0dup, List.enum, List.enumFrom, List.find?])
    (mkMatch "T0" (1 - 0 : ℚ) rowT0) (by simp) rfl
